import Mathlib

/-!
Shallow embedding of the auto-forward bot core
(`src/deepseek_python_20250907_2f3644.py`, class `EnhancedAutoForwardBot`):
the SQLite-backed data model (`init_db`), the OTP verification state
machine (`start`, `handle_contact`, `verify_otp`), the forwarding-rule
store (`add_forward`, `handle_forward_replacements`) and the relay
engine (`start_forwarding`'s `handler` closure).

Timestamps are modelled as natural numbers (seconds); `CURRENT_TIMESTAMP`
becomes an explicit `now` argument.  External collaborators (Telethon
sign-in, SMS delivery) are modelled by boolean outcome parameters, as the
spec places them outside the core.  SQLite tables are lists of rows kept
in insertion (rowid) order.
-/

namespace ForwardBot

/-! ## String helpers modelling Python `str` methods on `List Char` -/

/-- Models Python `str.replace` for a non-empty pattern: replace all
non-overlapping occurrences of `old`, scanning left to right.  The `Nat`
argument is recursion fuel (call with the length of the subject list);
every step consumes at least one character, so fuel equal to the length
suffices. -/
def replaceAux (old new : List Char) : Nat → List Char → List Char
  | _, [] => []
  | 0, l => l
  | fuel + 1, c :: rest =>
    if 0 < old.length ∧ old.isPrefixOf (c :: rest) then
      new ++ replaceAux old new fuel (rest.drop (old.length - 1))
    else
      c :: replaceAux old new fuel rest

/-- Models Python `str.replace(old, new)` (all occurrences, literal
substring matching, no regex).  The empty-pattern case follows Python:
`"ab".replace("", "-") = "-a-b-"`. -/
def pyReplace (s old new : String) : String :=
  if old.data.isEmpty then
    ⟨new.data ++ s.data.foldr (fun c acc => c :: (new.data ++ acc)) []⟩
  else
    ⟨replaceAux old.data new.data s.data.length s.data⟩

/-- Models Python `str.split(sep)` (all occurrences, empty pieces kept).
Fuel-based: call through `splitOnList`. -/
def splitOnAux (sep : List Char) : Nat → List Char → List Char → List (List Char)
  | _, acc, [] => [acc.reverse]
  | 0, acc, l => [acc.reverse ++ l]
  | fuel + 1, acc, c :: rest =>
    if 0 < sep.length ∧ sep.isPrefixOf (c :: rest) then
      acc.reverse :: splitOnAux sep fuel [] (rest.drop (sep.length - 1))
    else
      splitOnAux sep fuel (c :: acc) rest

/-- Models Python `str.split(sep)` on character lists. -/
def splitOnList (sep l : List Char) : List (List Char) :=
  splitOnAux sep l.length [] l

/-- Models Python `str.split(sep, 1)` combined with the `sep in s` test:
returns `some (before, after)` at the first occurrence of `sep`, `none`
when `sep` does not occur.  Fuel-based as above. -/
def splitOnceAux (sep : List Char) : Nat → List Char → List Char → Option (List Char × List Char)
  | _, _, [] => none
  | 0, _, _ => none
  | fuel + 1, acc, c :: rest =>
    if 0 < sep.length ∧ sep.isPrefixOf (c :: rest) then
      some (acc.reverse, rest.drop (sep.length - 1))
    else
      splitOnceAux sep fuel (c :: acc) rest

/-- Split at the first occurrence of `sep` (Python `split(sep, 1)`). -/
def splitOnceList (sep l : List Char) : Option (List Char × List Char) :=
  splitOnceAux sep l.length [] l

/-- Models Python `str.strip()`: drop leading and trailing whitespace. -/
def stripChars (l : List Char) : List Char :=
  ((l.dropWhile Char.isWhitespace).reverse.dropWhile Char.isWhitespace).reverse

/-- Models Python `a or b` on optional strings (`None` and `""` are falsy). -/
def pyOrStr (a b : Option String) : Option String :=
  match a with
  | some s => if s.data.isEmpty then b else some s
  | none => b

/-! ## Data model (`init_db` schema) -/

/-- Row of the `users` table: `user_id INTEGER PRIMARY KEY, phone TEXT
UNIQUE, session_string TEXT, is_verified BOOLEAN DEFAULT 0, created_at,
last_active`. -/
structure UserRow where
  user_id : Nat
  phone : Option String
  session_string : Option String
  is_verified : Bool
  created_at : Nat
  last_active : Nat
deriving DecidableEq, Repr

/-- Row of the `otps` table. -/
structure OtpRow where
  user_id : Nat
  phone : String
  otp_code : String
  expires_at : Nat
  is_used : Bool
  created_at : Nat
deriving DecidableEq, Repr

/-- Row of the `forwarding_rules` table. -/
structure RuleRow where
  id : Nat
  user_id : Nat
  source_channel : String
  target_channel : String
  replacement_rules : Option String
  is_active : Bool
  created_at : Nat
  last_forwarded : Option Nat
deriving DecidableEq, Repr

/-- Row of the `forwarded_messages` table. -/
structure ForwardedRow where
  rule_id : Nat
  message_id : Nat
  forwarded_at : Nat
deriving DecidableEq, Repr

/-- The SQLite database.  Each table is a list of rows in insertion
(rowid) order; `nextRuleId` models the `AUTOINCREMENT` id of
`forwarding_rules` (the only autoincrement id the handlers read back,
via `cursor.lastrowid`). -/
structure DB where
  users : List UserRow
  otps : List OtpRow
  rules : List RuleRow
  forwarded : List ForwardedRow
  nextRuleId : Nat
deriving DecidableEq, Repr

/-- Models `SELECT ... FROM users WHERE user_id = ?` (`user_id` is the
primary key, so the first match is the row). -/
def usersLookup (db : DB) (uid : Nat) : Option UserRow :=
  db.users.find? (fun u => u.user_id = uid)

/-- The stored phone of a user (`none` when the user row is absent or its
phone column is NULL). -/
def userPhone (db : DB) (uid : Nat) : Option String :=
  (usersLookup db uid).bind (fun u => u.phone)

/-- Whether `SELECT is_verified FROM users WHERE user_id = ?` yields a
truthy value (row present and flag set). -/
def userVerified (db : DB) (uid : Nat) : Bool :=
  match usersLookup db uid with
  | some u => u.is_verified
  | none => false

/-- Models `UPDATE users SET last_active = CURRENT_TIMESTAMP WHERE
user_id = ?`. -/
def touchLastActive (db : DB) (uid now : Nat) : DB :=
  { db with users := db.users.map (fun u =>
      if u.user_id = uid then { u with last_active := now } else u) }

/-- Models `SELECT otp_code, expires_at FROM otps WHERE user_id = ? AND
is_used = 0 ORDER BY created_at DESC LIMIT 1`: among the user's unused
challenges, the one with the greatest `created_at` (on equal timestamps
the later-inserted row wins). -/
def latestUnusedOtp (db : DB) (uid : Nat) : Option OtpRow :=
  (db.otps.filter (fun r => r.user_id = uid ∧ r.is_used = false)).foldl
    (fun acc r =>
      match acc with
      | none => some r
      | some b => if b.created_at ≤ r.created_at then some r else some b)
    none

/-- Models `SELECT COUNT(*) FROM forwarding_rules WHERE user_id = ? AND
is_active = 1`. -/
def countActiveRules (db : DB) (uid : Nat) : Nat :=
  (db.rules.filter (fun r => r.user_id = uid ∧ r.is_active = true)).length

/-! ## Conversation state (`ConversationHandler`) -/

/-- Conversation state constants: `PHONE, OTP, FORWARD_SOURCE,
FORWARD_TARGET, FORWARD_REPLACEMENTS = range(5)`. -/
def PHONE : Nat := 0

/-- State in which `verify_otp` accepts a code. -/
def OTP : Nat := 1

/-- State in which `handle_forward_source` runs. -/
def FORWARD_SOURCE : Nat := 2

/-- State in which `handle_forward_target` runs. -/
def FORWARD_TARGET : Nat := 3

/-- State in which `handle_forward_replacements` runs. -/
def FORWARD_REPLACEMENTS : Nat := 4

/-- An entry of `self.user_sessions[user_id]`: the ad hoc per-user
conversation dictionary.  `phone` is set by `handle_contact`;
`f_source` and `f_target` are the partially built `forwarding_rule`
dictionary filled in by the forward-setup handlers. -/
structure UserSession where
  step : Nat
  phone : Option String
  f_source : Option String
  f_target : Option String
deriving DecidableEq, Repr

/-- Lookup in the `user_sessions` dictionary. -/
def sessLookup (ss : List (Nat × UserSession)) (uid : Nat) : Option UserSession :=
  (ss.find? (fun p => p.1 = uid)).map (fun p => p.2)

/-- Assignment `self.user_sessions[user_id] = s` (dictionaries hold one
entry per key). -/
def sessSet (ss : List (Nat × UserSession)) (uid : Nat) (s : UserSession) :
    List (Nat × UserSession) :=
  ss.filter (fun p => p.1 ≠ uid) ++ [(uid, s)]

/-- Deletion `del self.user_sessions[user_id]`. -/
def sessErase (ss : List (Nat × UserSession)) (uid : Nat) : List (Nat × UserSession) :=
  ss.filter (fun p => p.1 ≠ uid)

/-! ## `start` -/

/-- Models `INSERT OR REPLACE INTO users (...) VALUES (...)`: on a
primary-key conflict SQLite REPLACE deletes the existing row and inserts
a fresh one, so every column not named in the statement takes its schema
default (`phone` NULL, `session_string` NULL, `is_verified` 0,
`created_at` CURRENT_TIMESTAMP). -/
def replaceUserRow (db : DB) (row : UserRow) : DB :=
  { db with users := db.users.filter (fun u => u.user_id ≠ row.user_id) ++ [row] }

/-- Outcome of the `start` handler. -/
structure StartOutcome where
  db : DB
  sessions : List (Nat × UserSession)
  ret : Option Nat
deriving DecidableEq, Repr

/-- Models the `start` handler: `INSERT OR REPLACE INTO users (user_id,
last_active) VALUES (?, CURRENT_TIMESTAMP)`, then the already-verified
check, else initialize the session at step `PHONE`.  `ret = none` models
`ConversationHandler.END`; `ret = some st` models returning state `st`. -/
def start (db : DB) (sessions : List (Nat × UserSession)) (uid now : Nat) : StartOutcome :=
  let db1 := replaceUserRow db
    { user_id := uid, phone := none, session_string := none,
      is_verified := false, created_at := now, last_active := now }
  if userVerified db1 uid then
    { db := db1, sessions := sessions, ret := none }
  else
    { db := db1,
      sessions := sessSet sessions uid
        { step := PHONE, phone := none, f_source := none, f_target := none },
      ret := some PHONE }

/-! ## `handle_contact` -/

/-- The user-visible replies of `handle_contact`. -/
inductive ContactReply
  | invalidPhone
  | conflict
  | otpViaSms
  | otpInBand
deriving DecidableEq, Repr

/-- Outcome of the `handle_contact` handler. -/
structure ContactOutcome where
  reply : ContactReply
  db : DB
  sessions : List (Nat × UserSession)
  ret : Option Nat
deriving DecidableEq, Repr

/-- Models `handle_contact`.  `phoneValid` is the outcome of the external
`phonenumbers` parse/validate step and `formatted` its E.164 rendering of
the submitted contact; `otp` is the generated random 6-digit code;
`smsOk = some b` models a configured SMS service whose delivery returned
`b`, and `smsOk = none` models no SMS service (in-band delivery).  A
failed SMS also falls back to in-band delivery of the code. -/
def handle_contact (db : DB) (sessions : List (Nat × UserSession)) (uid : Nat)
    (phoneValid : Bool) (formatted : String) (otp : String) (smsOk : Option Bool)
    (now : Nat) : ContactOutcome :=
  if ¬ phoneValid then
    { reply := .invalidPhone, db := db, sessions := sessions, ret := some PHONE }
  else if db.users.any (fun u => u.phone = some formatted ∧ u.user_id ≠ uid) then
    { reply := .conflict, db := db, sessions := sessions, ret := some PHONE }
  else
    let db1 := replaceUserRow db
      { user_id := uid, phone := some formatted, session_string := none,
        is_verified := false, created_at := now, last_active := now }
    let db2 := { db1 with otps := db1.otps ++
      [{ user_id := uid, phone := formatted, otp_code := otp,
         expires_at := now + 600, is_used := false, created_at := now }] }
    { reply := match smsOk with
        | some true => ContactReply.otpViaSms
        | some false => ContactReply.otpInBand
        | none => ContactReply.otpInBand,
      db := db2,
      sessions := sessSet sessions uid
        { step := OTP, phone := some formatted, f_source := none, f_target := none },
      ret := some OTP }

/-! ## `verify_otp` -/

/-- The user-visible replies of `verify_otp`. -/
inductive VerifyReply
  | notInProgress
  | noChallenge
  | expired
  | invalidCode
  | provisionFailed
  | verified
deriving DecidableEq, Repr

/-- Outcome of the `verify_otp` handler.  `clients` is the key set of
`self.user_clients`. -/
structure VerifyOutcome where
  reply : VerifyReply
  db : DB
  sessions : List (Nat × UserSession)
  clients : List Nat
  ret : Option Nat
deriving DecidableEq, Repr

/-- Models `verify_otp`.  `provisionOk` abstracts the Telethon
secondary-session provisioning (`connect` / `send_code_request` /
`sign_in`): `true` when it succeeds, and then `sessionString` is the
credential returned by `client.session.save()`.  On a code match the
handler first marks every unused otp row of this user carrying this code
as used (`UPDATE otps SET is_used = 1 WHERE user_id = ? AND otp_code =
?`) and sets `is_verified = 1`, commits, and only then attempts
provisioning; the exception path replies with an error and returns to
state `OTP` without any further database write. -/
def verify_otp (db : DB) (sessions : List (Nat × UserSession)) (clients : List Nat)
    (uid : Nat) (code : String) (now : Nat) (provisionOk : Bool) (sessionString : String) :
    VerifyOutcome :=
  match sessLookup sessions uid with
  | none =>
    { reply := .notInProgress, db := db, sessions := sessions, clients := clients, ret := none }
  | some s =>
    if s.step ≠ OTP then
      { reply := .notInProgress, db := db, sessions := sessions, clients := clients, ret := none }
    else
      match latestUnusedOtp db uid with
      | none =>
        { reply := .noChallenge, db := db, sessions := sessions, clients := clients, ret := none }
      | some c =>
        if c.expires_at < now then
          { reply := .expired, db := db, sessions := sessions, clients := clients, ret := none }
        else if code = c.otp_code then
          let db1 : DB := { db with otps := db.otps.map (fun r =>
            if r.user_id = uid ∧ r.otp_code = code then { r with is_used := true } else r) }
          let db2 : DB := { db1 with users := db1.users.map (fun u =>
            if u.user_id = uid then { u with is_verified := true, last_active := now } else u) }
          if provisionOk then
            let db3 : DB := { db2 with users := db2.users.map (fun u =>
              if u.user_id = uid then
                { u with session_string := some sessionString, last_active := now }
              else u) }
            { reply := .verified, db := db3, sessions := sessErase sessions uid,
              clients := clients ++ [uid], ret := none }
          else
            { reply := .provisionFailed, db := db2, sessions := sessions,
              clients := clients, ret := some OTP }
        else
          { reply := .invalidCode, db := db, sessions := sessions,
            clients := clients, ret := some OTP }

/-! ## Replacement-rule parsing and application (`start_forwarding`) -/

/-- Models the parsing loop at the top of `start_forwarding`: `for rule in
replacement_rules.split(','): if '->' in rule: old, new =
rule.split('->', 1); replacements.append((old.strip(), new.strip()))`.
`none` (NULL) and the empty string yield no replacements (Python `if
replacement_rules:` treats both as falsy). -/
def parse_replacement_rules (rules : Option String) : List (String × String) :=
  match rules with
  | none => []
  | some s =>
    if s.data.isEmpty then []
    else
      (splitOnList [','] s.data).foldl
        (fun acc rule =>
          match splitOnceList ['-', '>'] rule with
          | some (old, new) => acc ++ [(⟨stripChars old⟩, ⟨stripChars new⟩)]
          | none => acc)
        []

/-- Models the replacement loop of the `handler` closure: `for old, new in
replacements: text = text.replace(old, new)` — each pair is a literal
substring replace applied to the result of the earlier ones, in list
order. -/
def applyReplacements (repls : List (String × String)) (text : String) : String :=
  repls.foldl (fun t p => pyReplace t p.1 p.2) text

/-! ## `add_forward` and `handle_forward_replacements` -/

/-- The user-visible replies of `add_forward`. -/
inductive AddForwardReply
  | notVerified
  | sessionExpired
  | quotaExceeded
  | askSource
deriving DecidableEq, Repr

/-- Outcome of the `add_forward` guard. -/
structure AddForwardOutcome where
  reply : AddForwardReply
  db : DB
  sessions : List (Nat × UserSession)
deriving DecidableEq, Repr

/-- Models `add_forward`: touch `last_active`, require a verified user,
require a live Telethon session — `sessionOk` abstracts the
`is_connected` check together with the reconnect-from-`session_string` /
`get_me` probe — and enforce the cap `if rule_count >= 10`.  On success
the handler only primes the conversation at step `FORWARD_SOURCE`; the
rule row itself is inserted later by `handle_forward_replacements`. -/
def add_forward (db : DB) (sessions : List (Nat × UserSession)) (uid : Nat)
    (sessionOk : Bool) (now : Nat) : AddForwardOutcome :=
  let db0 := touchLastActive db uid now
  if ¬ userVerified db0 uid then
    { reply := .notVerified, db := db0, sessions := sessions }
  else if ¬ sessionOk then
    { reply := .sessionExpired, db := db0, sessions := sessions }
  else if 10 ≤ countActiveRules db0 uid then
    { reply := .quotaExceeded, db := db0, sessions := sessions }
  else
    { reply := .askSource, db := db0,
      sessions := sessSet sessions uid
        { step := FORWARD_SOURCE, phone := none, f_source := none, f_target := none } }

/-- One `asyncio.Task` created by `handle_forward_replacements`.  `owner`
is the key it was stored under in `self.forwarding_tasks` (the user id),
`ruleId` the rule passed to `start_forwarding`, `cancelled` whether
`.cancel()` has been called on it. -/
structure TaskEntry where
  taskId : Nat
  owner : Nat
  ruleId : Nat
  cancelled : Bool
deriving DecidableEq, Repr

/-- The in-memory task registry: the pool of all tasks ever created plus
the `self.forwarding_tasks` dictionary mapping a user id to their current
task (a Python dict, modelled as a finite map). -/
structure Engine where
  tasks : List TaskEntry
  forwarding_tasks : Nat → Option Nat
  nextTaskId : Nat

/-- Dictionary lookup in `self.forwarding_tasks` (`user_id in
self.forwarding_tasks` / `self.forwarding_tasks[user_id]`). -/
def ftLookup (m : Nat → Option Nat) (uid : Nat) : Option Nat := m uid

/-- Dictionary assignment `self.forwarding_tasks[user_id] = task`. -/
def ftSet (m : Nat → Option Nat) (uid t : Nat) : Nat → Option Nat :=
  fun u => if u = uid then some t else m u

/-- The engine before any task was created. -/
def emptyEngine : Engine :=
  { tasks := [], forwarding_tasks := fun _ => none, nextTaskId := 0 }

/-- Models the task management in `handle_forward_replacements`: `if
user_id in self.forwarding_tasks: self.forwarding_tasks[user_id].cancel()`
followed by `self.forwarding_tasks[user_id] =
asyncio.create_task(self.start_forwarding(user_id, rule_id, ...))`.  The
cancellation is keyed by the user alone — whatever rule the previous task
was relaying, it is cancelled outright. -/
def spawnForwardingTask (eng : Engine) (uid ruleId : Nat) : Engine :=
  let tasks1 := match ftLookup eng.forwarding_tasks uid with
    | some t => eng.tasks.map (fun e =>
        if e.taskId = t then { e with cancelled := true } else e)
    | none => eng.tasks
  { tasks := tasks1 ++
      [{ taskId := eng.nextTaskId, owner := uid, ruleId := ruleId, cancelled := false }],
    forwarding_tasks := ftSet eng.forwarding_tasks uid eng.nextTaskId,
    nextTaskId := eng.nextTaskId + 1 }

/-- Models `INSERT INTO forwarding_rules (user_id, source_channel,
target_channel, replacement_rules) VALUES (?, ?, ?, ?)`: `is_active`
defaults to 1 and `last_forwarded` to NULL; the returned number is
`cursor.lastrowid`. -/
def insertRule (db : DB) (uid : Nat) (src tgt : String) (repl : Option String)
    (now : Nat) : Nat × DB :=
  (db.nextRuleId,
   { db with
     rules := db.rules ++
       [{ id := db.nextRuleId, user_id := uid, source_channel := src,
          target_channel := tgt, replacement_rules := repl, is_active := true,
          created_at := now, last_forwarded := none }],
     nextRuleId := db.nextRuleId + 1 })

/-- Models `handle_forward_replacements` once the conversation holds the
validated source and target: `'skip'` (case-insensitively) maps to NULL
replacement rules, the rule row is inserted, and the user's previous
forwarding task — if the user has one — is cancelled and replaced by a
fresh task for the new rule.  Returns the new rule id as well. -/
def handle_forward_replacements (db : DB) (eng : Engine) (uid : Nat)
    (src tgt replacements_text : String) (now : Nat) : DB × Engine × Nat :=
  let repl : Option String :=
    if (⟨replacements_text.data.map Char.toLower⟩ : String) = "skip" then none
    else some replacements_text
  let inserted := insertRule db uid src tgt repl now
  (inserted.2, spawnForwardingTask eng uid inserted.1, inserted.1)

/-- The composed rule-creation flow as the caller sees it: the
`add_forward` guard followed, when all guards pass, by the rule insert
and task spawn of `handle_forward_replacements` (the intermediate
source/target probe steps only validate against the transport and write
no durable state). -/
def createRule (db : DB) (sessions : List (Nat × UserSession)) (eng : Engine)
    (uid : Nat) (sessionOk : Bool) (src tgt replacements_text : String) (now : Nat) :
    AddForwardReply × DB × Engine :=
  let o := add_forward db sessions uid sessionOk now
  if o.reply = .askSource then
    let r := handle_forward_replacements o.db eng uid src tgt replacements_text now
    (.askSource, r.1, r.2.1)
  else
    (o.reply, o.db, eng)

/-! ## The relay task (`start_forwarding` and its `handler` closure) -/

/-- A new-message event delivered to the `handler` closure: the source
message id, `message.text`, `message.caption`, whether the message
carries media, and the delivery time (`CURRENT_TIMESTAMP` at processing). -/
structure RelayEvent where
  id : Nat
  text : Option String
  caption : Option String
  media : Bool
  time : Nat
deriving DecidableEq, Repr

/-- The externally visible effects of the `handler` closure, in program
order: the publish to the target (`send_file` / `send_message`), the
`INSERT INTO forwarded_messages`, and the `UPDATE forwarding_rules SET
last_forwarded = CURRENT_TIMESTAMP`. -/
inductive RelayAction
  | publish (target : String) (media : Bool) (text : String)
  | appendRecord (ruleId msgId : Nat)
  | touchRule (ruleId : Nat)
deriving DecidableEq, Repr

/-- Models `message.text or message.caption or ""`. -/
def effectiveText (e : RelayEvent) : String :=
  (pyOrStr e.text e.caption).getD ""

/-- Models `SELECT message_id FROM forwarded_messages WHERE rule_id = ?
ORDER BY id DESC LIMIT 1` with fallback 0 (`last_id = last_message[0] if
last_message else 0`): the most recently inserted record of the rule. -/
def lastRecordedId (db : DB) (ruleId : Nat) : Nat :=
  match (db.forwarded.filter (fun f => f.rule_id = ruleId)).getLast? with
  | some f => f.message_id
  | none => 0

/-- The parameters `start_forwarding` closes over. -/
structure RelayConfig where
  ruleId : Nat
  source_channel : String
  target_channel : String
  replacements : List (String × String)
deriving DecidableEq, Repr

/-- The state a running relay task threads between event deliveries.
`lastId` is the local variable `last_id` of `start_forwarding`: the
`handler` closure only ever reads it, so it stays at the value read when
the task started, however many events are processed. -/
structure TaskState where
  lastId : Nat
  db : DB
  trace : List RelayAction
deriving DecidableEq, Repr

/-- Models the start of `start_forwarding` up to the subscription: parse
the replacement rules and read `last_id` once from the store. -/
def startTask (db : DB) (ruleId : Nat) (src tgt : String)
    (replacement_rules : Option String) : RelayConfig × TaskState :=
  ({ ruleId := ruleId, source_channel := src, target_channel := tgt,
     replacements := parse_replacement_rules replacement_rules },
   { lastId := lastRecordedId db ruleId, db := db, trace := [] })

/-- Models one delivery to the `handler` closure: skip when `event.message.id
<= last_id`; otherwise apply replacements, publish, insert the
`forwarded_messages` record, then update the rule's `last_forwarded`, in
that order. -/
def handleNewMessage (cfg : RelayConfig) (st : TaskState) (e : RelayEvent) : TaskState :=
  if e.id ≤ st.lastId then st
  else
    let text := applyReplacements cfg.replacements (effectiveText e)
    let db1 : DB := { st.db with forwarded := st.db.forwarded ++
      [{ rule_id := cfg.ruleId, message_id := e.id, forwarded_at := e.time }] }
    let db2 : DB := { db1 with rules := db1.rules.map (fun r =>
      if r.id = cfg.ruleId then { r with last_forwarded := some e.time } else r) }
    { lastId := st.lastId, db := db2,
      trace := st.trace ++
        [.publish cfg.target_channel e.media text,
         .appendRecord cfg.ruleId e.id,
         .touchRule cfg.ruleId] }

/-- Process a sequence of deliveries in order (the feed delivers events in
source order; the closure handles them one at a time). -/
def handleEvents (cfg : RelayConfig) (st : TaskState) (es : List RelayEvent) : TaskState :=
  es.foldl (handleNewMessage cfg) st

/-- Modelled from the spec (the comparison notion for the idempotence
claim): the checkpoint of a rule is the maximum source message identifier
already recorded for that rule, 0 when none is recorded. -/
def checkpoint (db : DB) (ruleId : Nat) : Nat :=
  (db.forwarded.filter (fun f => f.rule_id = ruleId)).foldl
    (fun m f => max m f.message_id) 0

/-- Number of publishes in a trace. -/
def publishCount (tr : List RelayAction) : Nat :=
  (tr.filter (fun a => match a with | .publish _ _ _ => true | _ => false)).length

/-- Number of `last_forwarded` updates in a trace. -/
def touchCount (tr : List RelayAction) : Nat :=
  (tr.filter (fun a => match a with | .touchRule _ => true | _ => false)).length

/-- Number of `forwarded_messages` rows recorded for a rule. -/
def recordCount (db : DB) (ruleId : Nat) : Nat :=
  (db.forwarded.filter (fun f => f.rule_id = ruleId)).length

/-- The live (not yet cancelled) tasks owned by a user. -/
def liveTasks (eng : Engine) (uid : Nat) : List TaskEntry :=
  eng.tasks.filter (fun e => e.owner = uid ∧ e.cancelled = false)

/-- Well-formedness of the task registry, maintained by
`spawnForwardingTask` from the empty engine: task ids stay below the
counter and are pairwise distinct, ids stored in the dictionary stay
below the counter, and every live task is the one its owner's dictionary
entry currently points to. -/
structure EngineInv (eng : Engine) : Prop where
  ids_lt : ∀ e ∈ eng.tasks, e.taskId < eng.nextTaskId
  ids_distinct : eng.tasks.Pairwise (fun a b => a.taskId ≠ b.taskId)
  dict_lt : ∀ u t, eng.forwarding_tasks u = some t → t < eng.nextTaskId
  live_in_dict : ∀ e ∈ eng.tasks, e.cancelled = false →
    ftLookup eng.forwarding_tasks e.owner = some e.taskId

/-! ## Helper lemmas -/

/-- Lookup by user id commutes with a row map that preserves user ids. -/
theorem usersFind_map (users : List UserRow) (uid : Nat) (f : UserRow → UserRow)
    (hf : ∀ u, (f u).user_id = u.user_id) :
    (users.map f).find? (fun u => u.user_id = uid) =
      (users.find? (fun u => u.user_id = uid)).map f := by
  induction users with
  | nil => rfl
  | cons u rest ih =>
    by_cases h : u.user_id = uid
    · have h1 : (f u).user_id = uid := by rw [hf]; exact h
      simp [List.find?_cons_of_pos, h, h1]
    · have h1 : ¬ (f u).user_id = uid := by rw [hf]; exact h
      simp only [List.map_cons, List.find?_cons_of_neg, h, h1, ih,
        decide_eq_true_eq, not_false_eq_true]

/-- Touching `last_active` does not change verification status. -/
theorem userVerified_touchLastActive (db : DB) (uid uid2 now : Nat) :
    userVerified (touchLastActive db uid2 now) uid = userVerified db uid := by
  unfold userVerified usersLookup touchLastActive
  rw [usersFind_map _ _ _ (fun u => by by_cases h : u.user_id = uid2 <;> simp [h])]
  cases h : db.users.find? (fun u => u.user_id = uid) with
  | none => rfl
  | some u => by_cases h2 : u.user_id = uid2 <;> simp [h2]

/-- Touching `last_active` does not change the rules table. -/
theorem rules_touchLastActive (db : DB) (uid now : Nat) :
    (touchLastActive db uid now).rules = db.rules := rfl

/-- Touching `last_active` does not change active-rule counts. -/
theorem countActive_touchLastActive (db : DB) (uid uid2 now : Nat) :
    countActiveRules (touchLastActive db uid2 now) uid = countActiveRules db uid := rfl

/-- Inserting a rule for `uid` increases the user's active-rule count by
exactly one. -/
theorem countActive_insertRule (db : DB) (uid : Nat) (src tgt : String)
    (rep : Option String) (now : Nat) :
    countActiveRules (insertRule db uid src tgt rep now).2 uid =
      countActiveRules db uid + 1 := by
  simp [countActiveRules, insertRule, List.filter_append]

/-- The composed creation flow never pushes an active-rule count that was
at most 10 above 10. -/
theorem countActive_createRule_le (db : DB) (sessions : List (Nat × UserSession))
    (eng : Engine) (uid : Nat) (sOk : Bool) (src tgt rep : String) (now : Nat)
    (h : countActiveRules db uid ≤ 10) :
    countActiveRules (createRule db sessions eng uid sOk src tgt rep now).2.1 uid ≤ 10 := by
  cases hb : userVerified (touchLastActive db uid now) uid with
  | false =>
    simpa [createRule, add_forward, hb, countActive_touchLastActive] using h
  | true =>
    cases sOk with
    | false =>
      simpa [createRule, add_forward, hb, countActive_touchLastActive] using h
    | true =>
      by_cases h3 : 10 ≤ countActiveRules db uid
      · simpa [createRule, add_forward, hb, h3, countActive_touchLastActive] using h
      · simp [createRule, add_forward, hb, h3, handle_forward_replacements,
          countActive_insertRule, countActive_touchLastActive]
        omega

/-- Lookup after a REPLACE upsert finds exactly the fresh row. -/
theorem usersFind_replaceRow (users : List UserRow) (row : UserRow) (uid : Nat)
    (hrow : row.user_id = uid) :
    ((users.filter (fun u => u.user_id ≠ row.user_id)) ++ [row]).find?
        (fun u => u.user_id = uid) = some row := by
  induction users with
  | nil => simp [List.find?, hrow]
  | cons u rest ih =>
    by_cases h : u.user_id = row.user_id
    · simpa [List.filter_cons, h] using ih
    · have hne : ¬ u.user_id = uid := by rw [← hrow]; exact h
      simpa [List.filter_cons, h, List.find?_cons_of_neg, hne] using ih

/-- Setting the verification flag of `uid` turns its looked-up row into the
verified copy of the old row. -/
theorem usersFind_setVerified (users : List UserRow) (uid now : Nat) (u : UserRow)
    (hu : users.find? (fun v => v.user_id = uid) = some u) :
    (users.map (fun v =>
        if v.user_id = uid then { v with is_verified := true, last_active := now }
        else v)).find? (fun v => v.user_id = uid) =
      some { u with is_verified := true, last_active := now } := by
  rw [usersFind_map _ _ _ (fun v => by by_cases h : v.user_id = uid <;> simp [h]), hu]
  have huid : u.user_id = uid := by simpa using List.find?_some hu
  simp [huid]

/-- Dictionary lookup after assignment at the same key. -/
theorem ftLookup_set_eq (m : Nat → Option Nat) (uid t : Nat) :
    ftLookup (ftSet m uid t) uid = some t := by
  simp [ftLookup, ftSet]

/-- Dictionary lookup after assignment at a different key. -/
theorem ftLookup_set_ne (m : Nat → Option Nat) (uid t uid2 : Nat) (h : uid2 ≠ uid) :
    ftLookup (ftSet m uid t) uid2 = ftLookup m uid2 := by
  simp [ftLookup, ftSet, h]

/-- Under the registry invariant a user has at most one live relay task. -/
theorem liveTasks_le_one (eng : Engine) (hinv : EngineInv eng) (uid : Nat) :
    (liveTasks eng uid).length ≤ 1 := by
  rcases hl : liveTasks eng uid with _ | ⟨a, _ | ⟨b, rest⟩⟩
  · simp
  · simp
  · exfalso
    have ha : a ∈ liveTasks eng uid := by rw [hl]; exact List.mem_cons_self _ _
    have hb : b ∈ liveTasks eng uid := by
      rw [hl]; exact List.mem_cons_of_mem _ (List.mem_cons_self _ _)
    have hpw : (liveTasks eng uid).Pairwise (fun x y => x.taskId ≠ y.taskId) :=
      List.Pairwise.sublist (List.filter_sublist _) hinv.ids_distinct
    have hne : a.taskId ≠ b.taskId := by
      rw [hl] at hpw
      exact (List.pairwise_cons.mp hpw).1 b (List.mem_cons_self _ _)
    have haf := List.mem_filter.mp ha
    have hbf := List.mem_filter.mp hb
    have ha2 : a.owner = uid ∧ a.cancelled = false := by simpa using haf.2
    have hb2 : b.owner = uid ∧ b.cancelled = false := by simpa using hbf.2
    have h1 := hinv.live_in_dict a haf.1 ha2.2
    have h2 := hinv.live_in_dict b hbf.1 hb2.2
    rw [ha2.1] at h1
    rw [hb2.1] at h2
    rw [h1] at h2
    exact hne (Option.some.inj h2)

/-- Spawning a forwarding task preserves the registry invariant. -/
theorem spawn_preserves_inv (eng : Engine) (uid ruleId : Nat) (hinv : EngineInv eng) :
    EngineInv (spawnForwardingTask eng uid ruleId) := by
  cases hft : ftLookup eng.forwarding_tasks uid with
  | none =>
    simp only [spawnForwardingTask, hft]
    refine ⟨?_, ?_, ?_, ?_⟩
    · intro e he
      rcases List.mem_append.mp he with h | h
      · exact Nat.lt_succ_of_lt (hinv.ids_lt e h)
      · rw [List.mem_singleton.mp h]
        exact Nat.lt_succ_self _
    · refine List.pairwise_append.mpr ⟨hinv.ids_distinct, List.pairwise_singleton _ _,
        fun a hha b hhb => ?_⟩
      rw [List.mem_singleton.mp hhb]
      exact Nat.ne_of_lt (hinv.ids_lt a hha)
    · intro u t2 hu
      have hu2 : (if u = uid then some eng.nextTaskId else eng.forwarding_tasks u) =
          some t2 := hu
      by_cases hc : u = uid
      · rw [if_pos hc] at hu2
        rw [← Option.some.inj hu2]
        exact Nat.lt_succ_self _
      · rw [if_neg hc] at hu2
        exact Nat.lt_succ_of_lt (hinv.dict_lt u t2 hu2)
    · intro e he hlive
      rcases List.mem_append.mp he with h | h
      · have hold := hinv.live_in_dict e h hlive
        have howner : e.owner ≠ uid := by
          intro hc
          rw [hc, hft] at hold
          exact Option.noConfusion hold
        rw [ftLookup_set_ne _ _ _ _ howner]
        exact hold
      · rw [List.mem_singleton.mp h]
        exact ftLookup_set_eq _ _ _
  | some t =>
    simp only [spawnForwardingTask, hft]
    have htid : ∀ x : TaskEntry,
        ((if x.taskId = t then { x with cancelled := true } else x) : TaskEntry).taskId =
          x.taskId := by
      intro x
      by_cases hx : x.taskId = t <;> simp [hx]
    refine ⟨?_, ?_, ?_, ?_⟩
    · intro e he
      rcases List.mem_append.mp he with h | h
      · rcases List.mem_map.mp h with ⟨x, hx, hfx⟩
        rw [← hfx, htid]
        exact Nat.lt_succ_of_lt (hinv.ids_lt x hx)
      · rw [List.mem_singleton.mp h]
        exact Nat.lt_succ_self _
    · refine List.pairwise_append.mpr ⟨?_, List.pairwise_singleton _ _,
        fun a hha b hhb => ?_⟩
      · refine List.Pairwise.map _ (fun a b hab => ?_) hinv.ids_distinct
        rw [htid, htid]
        exact hab
      · rw [List.mem_singleton.mp hhb]
        rcases List.mem_map.mp hha with ⟨x, hx, hfx⟩
        rw [← hfx, htid]
        exact Nat.ne_of_lt (hinv.ids_lt x hx)
    · intro u t2 hu
      have hu2 : (if u = uid then some eng.nextTaskId else eng.forwarding_tasks u) =
          some t2 := hu
      by_cases hc : u = uid
      · rw [if_pos hc] at hu2
        rw [← Option.some.inj hu2]
        exact Nat.lt_succ_self _
      · rw [if_neg hc] at hu2
        exact Nat.lt_succ_of_lt (hinv.dict_lt u t2 hu2)
    · intro e he hlive
      rcases List.mem_append.mp he with h | h
      · rcases List.mem_map.mp h with ⟨x, hx, hfx⟩
        have hxt : x.taskId ≠ t := by
          intro hc
          rw [← hfx] at hlive
          simp [hc] at hlive
        have hex : e = x := by rw [← hfx]; simp [hxt]
        rw [hex] at hlive ⊢
        have hold := hinv.live_in_dict x hx hlive
        have howner : x.owner ≠ uid := by
          intro hc
          rw [hc, hft] at hold
          exact hxt (Option.some.inj hold).symm
        rw [ftLookup_set_ne _ _ _ _ howner]
        exact hold
      · rw [List.mem_singleton.mp h]
        exact ftLookup_set_eq _ _ _

/-! ## Claim theorems -/

/-- Claim C4: for every relayed message, substitutions are applied to the
textual payload in list order, each substitution being a literal substring
replace (not regex) applied to the result of earlier ones; the rule text
`telegram->signal, example.com->mysite.com` parses to the substitution list
`[("telegram","signal"), ("example.com","mysite.com")]`, and applying that
list to `"join telegram at example.com"` yields `"join signal at
mysite.com"`.  The extra conjuncts pin down the claim's qualifiers: the
replace is literal, not regex (the pattern `example.com` does not match
`exampleXcom` even though `.` would match any character as a regex), and
later substitutions see the output of earlier ones
(`[("a","b"),("b","c")]` sends `"a"` to `"c"`). -/
theorem substitutions_applied_in_list_order :
    (∀ (p : String × String) (ps : List (String × String)) (t : String),
      applyReplacements (p :: ps) t = applyReplacements ps (pyReplace t p.1 p.2)) ∧
    parse_replacement_rules (some "telegram->signal, example.com->mysite.com") =
      [("telegram", "signal"), ("example.com", "mysite.com")] ∧
    applyReplacements [("telegram", "signal"), ("example.com", "mysite.com")]
      "join telegram at example.com" = "join signal at mysite.com" ∧
    pyReplace "join telegram at exampleXcom" "example.com" "mysite.com" =
      "join telegram at exampleXcom" ∧
    applyReplacements [("a", "b"), ("b", "c")] "a" = "c" :=
  ⟨fun _ _ _ => rfl, by decide, by decide, by decide, by decide⟩

/-- Claim C2 counterexample: replaying an already-relayed identifier is NOT
idempotent in general.  A task starts on a rule whose only record is id
500, relays event 501 (so 501 is now recorded and the rule's current
checkpoint — the maximum recorded identifier — is 501), and then receives
a duplicate delivery of id 501: although `501 ≤ checkpoint`, the handler
publishes once more and appends one more `forwarded_messages` row,
because its skip test compares against the `last_id` value read when the
task started (500), which the closure never advances. -/
theorem relay_replay_idempotence_counterexample :
    let db0 : DB := ⟨[], [],
      [⟨1, 7, "@src", "@tgt", none, true, 0, none⟩], [⟨1, 500, 0⟩], 2⟩
    let cs := startTask db0 1 "@src" "@tgt" none
    let e : RelayEvent := ⟨501, some "hello", none, false, 10⟩
    let st1 := handleNewMessage cs.1 cs.2 e
    e.id ≤ checkpoint st1.db 1 ∧
    publishCount (handleNewMessage cs.1 st1 e).trace = publishCount st1.trace + 1 ∧
    recordCount (handleNewMessage cs.1 st1 e).db 1 = recordCount st1.db 1 + 1 := by
  decide

/-- Claim C2 (amended): an event whose identifier is at most the
checkpoint the task read when it started (`last_id`, the last recorded
identifier for the rule at subscription time) is skipped with zero
additional publishes and zero additional `forwarded_messages` rows — the
whole task state is unchanged.  The in-task checkpoint is not advanced by
identifiers recorded after task start, so only identifiers at or below
the startup checkpoint are protected against duplicate delivery. -/
theorem relay_skip_below_startup_checkpoint (cfg : RelayConfig) (st : TaskState)
    (e : RelayEvent) (h : e.id ≤ st.lastId) :
    handleNewMessage cfg st e = st ∧
    publishCount (handleNewMessage cfg st e).trace = publishCount st.trace ∧
    recordCount (handleNewMessage cfg st e).db cfg.ruleId = recordCount st.db cfg.ruleId := by
  have hn : handleNewMessage cfg st e = st := by
    simp [handleNewMessage, h]
  exact ⟨hn, by rw [hn], by rw [hn]⟩

/-- Witness for the amended C2 theorem at a concrete skipped event. -/
theorem relay_skip_below_startup_checkpoint_witness :
    handleNewMessage ⟨1, "@s", "@t", []⟩ ⟨500, ⟨[], [], [], [], 0⟩, []⟩
        ⟨500, some "x", none, false, 3⟩ =
      ⟨500, ⟨[], [], [], [], 0⟩, []⟩ :=
  (relay_skip_below_startup_checkpoint ⟨1, "@s", "@t", []⟩
    ⟨500, ⟨[], [], [], [], 0⟩, []⟩ ⟨500, some "x", none, false, 3⟩ (by decide)).1

/-- Claim C3: for every event above the task's checkpoint the handler
publishes, then appends the `forwarded_messages` record, then updates the
rule's `last_forwarded`, in that order, before the next event is
processed; in the concrete scenario (rule checkpoint 500, events 501 then
502) both events are published, two checkpoint records are written,
`last_forwarded` is updated twice, and the final checkpoint is 502. -/
theorem relay_publish_record_touch_in_order :
    (∀ (cfg : RelayConfig) (st : TaskState) (e : RelayEvent), st.lastId < e.id →
      (handleNewMessage cfg st e).trace = st.trace ++
        [.publish cfg.target_channel e.media
           (applyReplacements cfg.replacements (effectiveText e)),
         .appendRecord cfg.ruleId e.id,
         .touchRule cfg.ruleId]) ∧
    (let db0 : DB := ⟨[], [],
       [⟨1, 7, "@src", "@tgt", none, true, 0, none⟩], [⟨1, 500, 0⟩], 2⟩
     let cs := startTask db0 1 "@src" "@tgt" none
     let fin := handleEvents cs.1 cs.2
       [⟨501, some "m1", none, false, 11⟩, ⟨502, some "m2", none, false, 12⟩]
     fin.trace =
        [.publish "@tgt" false "m1", .appendRecord 1 501, .touchRule 1,
         .publish "@tgt" false "m2", .appendRecord 1 502, .touchRule 1] ∧
     publishCount fin.trace = 2 ∧
     recordCount fin.db 1 = recordCount db0 1 + 2 ∧
     touchCount fin.trace = 2 ∧
     fin.db.rules.map (fun r => r.last_forwarded) = [some 12] ∧
     checkpoint fin.db 1 = 502) := by
  constructor
  · intro cfg st e h
    have hn : ¬ e.id ≤ st.lastId := by omega
    simp [handleNewMessage, hn]
  · decide

/-- Witness for the universally quantified half of the C3 theorem at a
concrete event above the checkpoint. -/
theorem relay_publish_record_touch_in_order_witness :
    (handleNewMessage ⟨1, "@s", "@t", []⟩ ⟨0, ⟨[], [], [], [], 0⟩, []⟩
        ⟨1, some "x", none, false, 3⟩).trace =
      [] ++
        [.publish "@t" false
           (applyReplacements [] (effectiveText ⟨1, some "x", none, false, 3⟩)),
         .appendRecord 1 1,
         .touchRule 1] :=
  relay_publish_record_touch_in_order.1 ⟨1, "@s", "@t", []⟩
    ⟨0, ⟨[], [], [], [], 0⟩, []⟩ ⟨1, some "x", none, false, 3⟩ (by decide)

/-- Claim C7: a verification attempt against the current (most recent
unused) challenge submitted strictly after its `expires_at` always replies
`expired`, regardless of the submitted code, terminates the conversation
(`ConversationHandler.END`, so the user must restart from phone
submission), and leaves the database untouched. -/
theorem verify_otp_expired_terminates (db : DB) (sessions : List (Nat × UserSession))
    (clients : List Nat) (uid : Nat) (code : String) (now : Nat)
    (provisionOk : Bool) (sessionString : String) (s : UserSession) (c : OtpRow)
    (hs : sessLookup sessions uid = some s) (hstep : s.step = OTP)
    (hc : latestUnusedOtp db uid = some c) (hexp : c.expires_at < now) :
    (verify_otp db sessions clients uid code now provisionOk sessionString).reply = .expired ∧
    (verify_otp db sessions clients uid code now provisionOk sessionString).ret = none ∧
    (verify_otp db sessions clients uid code now provisionOk sessionString).db = db := by
  refine ⟨?_, ?_, ?_⟩ <;> simp [verify_otp, hs, hstep, hc, hexp]

/-- Witness for the C7 theorem: a challenge that expired at time 600,
attacked at time 601 with the CORRECT code, still replies `expired`. -/
theorem verify_otp_expired_terminates_witness :
    (verify_otp
        ⟨[⟨7, some "+14155552671", none, false, 0, 0⟩],
         [⟨7, "+14155552671", "482913", 600, false, 0⟩], [], [], 1⟩
        [(7, ⟨OTP, some "+14155552671", none, none⟩)] [] 7 "482913" 601 true "sess").reply =
      .expired :=
  (verify_otp_expired_terminates
    ⟨[⟨7, some "+14155552671", none, false, 0, 0⟩],
     [⟨7, "+14155552671", "482913", 600, false, 0⟩], [], [], 1⟩
    [(7, ⟨OTP, some "+14155552671", none, none⟩)] [] 7 "482913" 601 true "sess"
    ⟨OTP, some "+14155552671", none, none⟩ ⟨7, "+14155552671", "482913", 600, false, 0⟩
    (by decide) (by decide) (by decide) (by decide)).1

/-- Claim C1 counterexample: a user in the OTP step submits the correct,
unexpired code, and secondary-session provisioning fails — afterwards the
account IS marked verified (the verification-flag write is not rolled
back), even though the handler reports the failure and returns to the OTP
state.  This refutes the claim that the account is NOT marked verified in
this path. -/
theorem verify_otp_rollback_counterexample :
    let db : DB := ⟨[⟨7, some "+14155552671", none, false, 0, 0⟩],
      [⟨7, "+14155552671", "482913", 600, false, 0⟩], [], [], 1⟩
    let o := verify_otp db [(7, ⟨OTP, some "+14155552671", none, none⟩)] []
      7 "482913" 100 false "sess"
    o.reply = .provisionFailed ∧ userVerified o.db 7 = true ∧ o.ret = some OTP := by
  decide

/-- Claim C1 (amended): when a user in `AwaitingOtp` submits the correct,
unexpired code and the subsequent secondary-session provisioning fails,
the handler surfaces an error and the user remains re-enterable into
`AwaitingOtp` (the conversation returns to the OTP state and the
conversation session entry is kept) — but the verification-flag
transition is NOT rolled back: the user's account remains marked
verified, so the two persistence writes are not atomic from the caller's
perspective. -/
theorem verify_otp_provision_failure_keeps_verified
    (db : DB) (sessions : List (Nat × UserSession)) (clients : List Nat)
    (uid : Nat) (code : String) (now : Nat) (sessionString : String)
    (s : UserSession) (c : OtpRow) (u : UserRow)
    (hs : sessLookup sessions uid = some s) (hstep : s.step = OTP)
    (hc : latestUnusedOtp db uid = some c) (hexp : ¬ c.expires_at < now)
    (hcode : code = c.otp_code) (hu : usersLookup db uid = some u) :
    (verify_otp db sessions clients uid code now false sessionString).reply =
      .provisionFailed ∧
    (verify_otp db sessions clients uid code now false sessionString).ret = some OTP ∧
    (verify_otp db sessions clients uid code now false sessionString).sessions = sessions ∧
    userVerified (verify_otp db sessions clients uid code now false sessionString).db uid =
      true := by
  refine ⟨?_, ?_, ?_, ?_⟩
  · simp [verify_otp, hs, hstep, hc, hexp, hcode]
  · simp [verify_otp, hs, hstep, hc, hexp, hcode]
  · simp [verify_otp, hs, hstep, hc, hexp, hcode]
  · have husers : (verify_otp db sessions clients uid code now false sessionString).db.users =
        db.users.map (fun v =>
          if v.user_id = uid then { v with is_verified := true, last_active := now }
          else v) := by
      simp [verify_otp, hs, hstep, hc, hexp, hcode]
    unfold userVerified usersLookup
    rw [husers, usersFind_setVerified db.users uid now u hu]

/-- Witness for the amended C1 theorem at the concrete counterexample
state. -/
theorem verify_otp_provision_failure_keeps_verified_witness :
    userVerified (verify_otp
        ⟨[⟨7, some "+14155552671", none, false, 0, 0⟩],
         [⟨7, "+14155552671", "482913", 600, false, 0⟩], [], [], 1⟩
        [(7, ⟨OTP, some "+14155552671", none, none⟩)] [] 7 "482913" 100 false "sess").db 7 =
      true :=
  (verify_otp_provision_failure_keeps_verified
    ⟨[⟨7, some "+14155552671", none, false, 0, 0⟩],
     [⟨7, "+14155552671", "482913", 600, false, 0⟩], [], [], 1⟩
    [(7, ⟨OTP, some "+14155552671", none, none⟩)] [] 7 "482913" 100 "sess"
    ⟨OTP, some "+14155552671", none, none⟩ ⟨7, "+14155552671", "482913", 600, false, 0⟩
    ⟨7, some "+14155552671", none, false, 0, 0⟩
    (by decide) (by decide) (by decide) (by decide) (by decide) (by decide)).2.2.2

/-- Claim C6: submitting a phone number that is already bound to a
different account replies with the conflict error, performs no database
write at all (in particular account B's stored phone stays exactly as it
was — unset if it was unset), and keeps the conversation in the PHONE
state. -/
theorem handle_contact_conflict_no_write (db : DB)
    (sessions : List (Nat × UserSession)) (uid : Nat) (formatted otp : String)
    (smsOk : Option Bool) (now : Nat) (a : UserRow)
    (ha : a ∈ db.users) (hphone : a.phone = some formatted) (hne : a.user_id ≠ uid) :
    (handle_contact db sessions uid true formatted otp smsOk now).reply = .conflict ∧
    (handle_contact db sessions uid true formatted otp smsOk now).db = db ∧
    userPhone (handle_contact db sessions uid true formatted otp smsOk now).db uid =
      userPhone db uid ∧
    (handle_contact db sessions uid true formatted otp smsOk now).ret = some PHONE := by
  have hex : ∃ x ∈ db.users, x.phone = some formatted ∧ ¬ x.user_id = uid :=
    ⟨a, ha, hphone, hne⟩
  refine ⟨?_, ?_, ?_, ?_⟩ <;> simp [handle_contact, hex]

/-- Witness for the C6 theorem: phone `+14155552671` is bound to account
3; account 7 (phone unset) submits it and gets the conflict reply with no
write. -/
theorem handle_contact_conflict_no_write_witness :
    (handle_contact ⟨[⟨3, some "+14155552671", none, true, 0, 0⟩], [], [], [], 1⟩
        [] 7 true "+14155552671" "123456" none 5).reply = .conflict ∧
    userPhone (handle_contact ⟨[⟨3, some "+14155552671", none, true, 0, 0⟩], [], [], [], 1⟩
        [] 7 true "+14155552671" "123456" none 5).db 7 =
      userPhone (⟨[⟨3, some "+14155552671", none, true, 0, 0⟩], [], [], [], 1⟩ : DB) 7 :=
  ⟨(handle_contact_conflict_no_write
      ⟨[⟨3, some "+14155552671", none, true, 0, 0⟩], [], [], [], 1⟩ [] 7 "+14155552671"
      "123456" none 5 ⟨3, some "+14155552671", none, true, 0, 0⟩
      (by decide) (by decide) (by decide)).1,
   (handle_contact_conflict_no_write
      ⟨[⟨3, some "+14155552671", none, true, 0, 0⟩], [], [], [], 1⟩ [] 7 "+14155552671"
      "123456" none 5 ⟨3, some "+14155552671", none, true, 0, 0⟩
      (by decide) (by decide) (by decide)).2.2.1⟩

/-- Claim C10: on successful OTP verification (correct code against the
current unexpired challenge, whether or not provisioning then succeeds),
every stored challenge of that user whose code equals the submitted code
is marked consumed — the `UPDATE` is keyed on `(user_id, otp_code)`, not
on the single most recent challenge — while every challenge of that user
with a different code is kept completely unchanged (in particular it
stays unconsumed if it was unconsumed). -/
theorem verify_otp_consumes_all_matching_challenges
    (db : DB) (sessions : List (Nat × UserSession)) (clients : List Nat)
    (uid : Nat) (code : String) (now : Nat) (provisionOk : Bool) (sessionString : String)
    (s : UserSession) (c : OtpRow)
    (hs : sessLookup sessions uid = some s) (hstep : s.step = OTP)
    (hc : latestUnusedOtp db uid = some c) (hexp : ¬ c.expires_at < now)
    (hcode : code = c.otp_code) :
    ∀ r ∈ db.otps, r.user_id = uid →
      (r.otp_code = code →
        { r with is_used := true } ∈
          (verify_otp db sessions clients uid code now provisionOk sessionString).db.otps) ∧
      (r.otp_code ≠ code →
        r ∈ (verify_otp db sessions clients uid code now provisionOk sessionString).db.otps) := by
  have hotps : (verify_otp db sessions clients uid code now provisionOk sessionString).db.otps =
      db.otps.map (fun r =>
        if r.user_id = uid ∧ r.otp_code = code then { r with is_used := true } else r) := by
    cases provisionOk <;> simp [verify_otp, hs, hstep, hc, hexp, hcode]
  intro r hr huid
  rw [hotps]
  constructor
  · intro hmatch
    have : ({ r with is_used := true } : OtpRow) =
        (fun r => if r.user_id = uid ∧ r.otp_code = code then
          { r with is_used := true } else r) r := by
      simp [huid, hmatch]
    rw [this]
    exact List.mem_map_of_mem _ hr
  · intro hdiff
    have : r = (fun r => if r.user_id = uid ∧ r.otp_code = code then
        { r with is_used := true } else r) r := by
      simp [huid, hdiff]
    rw [this]
    exact List.mem_map_of_mem _ hr

/-- Witness for the C10 theorem: user 7 holds two unused challenges with
code `482913` (an older and a newer one) and one with code `111111`;
submitting `482913` marks BOTH matching challenges consumed and leaves
the `111111` challenge untouched. -/
theorem verify_otp_consumes_all_matching_challenges_witness :
    ({ user_id := 7, phone := "+14155552671", otp_code := "482913",
       expires_at := 300, is_used := true, created_at := 0 } : OtpRow) ∈
      (verify_otp
        ⟨[⟨7, some "+14155552671", none, false, 0, 0⟩],
         [⟨7, "+14155552671", "482913", 300, false, 0⟩,
          ⟨7, "+14155552671", "111111", 500, false, 1⟩,
          ⟨7, "+14155552671", "482913", 600, false, 2⟩], [], [], 1⟩
        [(7, ⟨OTP, some "+14155552671", none, none⟩)] [] 7 "482913" 100 true "sess").db.otps ∧
    ({ user_id := 7, phone := "+14155552671", otp_code := "111111",
       expires_at := 500, is_used := false, created_at := 1 } : OtpRow) ∈
      (verify_otp
        ⟨[⟨7, some "+14155552671", none, false, 0, 0⟩],
         [⟨7, "+14155552671", "482913", 300, false, 0⟩,
          ⟨7, "+14155552671", "111111", 500, false, 1⟩,
          ⟨7, "+14155552671", "482913", 600, false, 2⟩], [], [], 1⟩
        [(7, ⟨OTP, some "+14155552671", none, none⟩)] [] 7 "482913" 100 true "sess").db.otps :=
  ⟨((verify_otp_consumes_all_matching_challenges
      ⟨[⟨7, some "+14155552671", none, false, 0, 0⟩],
       [⟨7, "+14155552671", "482913", 300, false, 0⟩,
        ⟨7, "+14155552671", "111111", 500, false, 1⟩,
        ⟨7, "+14155552671", "482913", 600, false, 2⟩], [], [], 1⟩
      [(7, ⟨OTP, some "+14155552671", none, none⟩)] [] 7 "482913" 100 true "sess"
      ⟨OTP, some "+14155552671", none, none⟩ ⟨7, "+14155552671", "482913", 600, false, 2⟩
      (by decide) (by decide) (by decide) (by decide) (by decide)
      ⟨7, "+14155552671", "482913", 300, false, 0⟩ (by decide) (by decide)).1
      (by decide)),
   ((verify_otp_consumes_all_matching_challenges
      ⟨[⟨7, some "+14155552671", none, false, 0, 0⟩],
       [⟨7, "+14155552671", "482913", 300, false, 0⟩,
        ⟨7, "+14155552671", "111111", 500, false, 1⟩,
        ⟨7, "+14155552671", "482913", 600, false, 2⟩], [], [], 1⟩
      [(7, ⟨OTP, some "+14155552671", none, none⟩)] [] 7 "482913" 100 true "sess"
      ⟨OTP, some "+14155552671", none, none⟩ ⟨7, "+14155552671", "482913", 600, false, 2⟩
      (by decide) (by decide) (by decide) (by decide) (by decide)
      ⟨7, "+14155552671", "111111", 500, false, 1⟩ (by decide) (by decide)).2
      (by decide))⟩

/-- Claim C5: a rule-creation attempt by a verified user with a live
session who already holds 10 active forwarding rules fails with the
quota-exceeded reply, no rule row is written, and the user's active-rule
count is still 10 when the call returns; moreover (last conjunct) no
creation attempt of any kind ever pushes an active-rule count that was at
most 10 above 10. -/
theorem createRule_quota_enforced (db : DB) (sessions : List (Nat × UserSession))
    (eng : Engine) (uid : Nat) (src tgt rep : String) (now : Nat)
    (hver : userVerified db uid = true) (hcount : countActiveRules db uid = 10) :
    (createRule db sessions eng uid true src tgt rep now).1 = .quotaExceeded ∧
    (createRule db sessions eng uid true src tgt rep now).2.1.rules = db.rules ∧
    countActiveRules (createRule db sessions eng uid true src tgt rep now).2.1 uid = 10 ∧
    (∀ (db2 : DB) (sOk : Bool), countActiveRules db2 uid ≤ 10 →
      countActiveRules (createRule db2 sessions eng uid sOk src tgt rep now).2.1 uid ≤ 10) := by
  have hv : userVerified (touchLastActive db uid now) uid = true := by
    rw [userVerified_touchLastActive]; exact hver
  refine ⟨?_, ?_, ?_, fun db2 sOk h => countActive_createRule_le db2 sessions eng uid sOk
    src tgt rep now h⟩
  · simp [createRule, add_forward, hv, countActive_touchLastActive, hcount]
  · simp [createRule, add_forward, hv, countActive_touchLastActive, hcount,
      rules_touchLastActive]
  · simp [createRule, add_forward, hv, countActive_touchLastActive, hcount]

/-- Witness for the C5 theorem: a verified user with exactly 10 active
rules gets the quota reply and still has exactly 10 active rules. -/
theorem createRule_quota_enforced_witness :
    (createRule
        ⟨[⟨7, some "+14155552671", some "sess", true, 0, 0⟩], [],
         [⟨1, 7, "a", "b", none, true, 0, none⟩, ⟨2, 7, "a", "b", none, true, 0, none⟩,
          ⟨3, 7, "a", "b", none, true, 0, none⟩, ⟨4, 7, "a", "b", none, true, 0, none⟩,
          ⟨5, 7, "a", "b", none, true, 0, none⟩, ⟨6, 7, "a", "b", none, true, 0, none⟩,
          ⟨7, 7, "a", "b", none, true, 0, none⟩, ⟨8, 7, "a", "b", none, true, 0, none⟩,
          ⟨9, 7, "a", "b", none, true, 0, none⟩, ⟨10, 7, "a", "b", none, true, 0, none⟩],
         [], 11⟩
        [] emptyEngine 7 true "@src" "@tgt" "skip" 5).1 = .quotaExceeded ∧
    countActiveRules (createRule
        ⟨[⟨7, some "+14155552671", some "sess", true, 0, 0⟩], [],
         [⟨1, 7, "a", "b", none, true, 0, none⟩, ⟨2, 7, "a", "b", none, true, 0, none⟩,
          ⟨3, 7, "a", "b", none, true, 0, none⟩, ⟨4, 7, "a", "b", none, true, 0, none⟩,
          ⟨5, 7, "a", "b", none, true, 0, none⟩, ⟨6, 7, "a", "b", none, true, 0, none⟩,
          ⟨7, 7, "a", "b", none, true, 0, none⟩, ⟨8, 7, "a", "b", none, true, 0, none⟩,
          ⟨9, 7, "a", "b", none, true, 0, none⟩, ⟨10, 7, "a", "b", none, true, 0, none⟩],
         [], 11⟩
        [] emptyEngine 7 true "@src" "@tgt" "skip" 5).2.1 7 = 10 :=
  ⟨(createRule_quota_enforced
      ⟨[⟨7, some "+14155552671", some "sess", true, 0, 0⟩], [],
       [⟨1, 7, "a", "b", none, true, 0, none⟩, ⟨2, 7, "a", "b", none, true, 0, none⟩,
        ⟨3, 7, "a", "b", none, true, 0, none⟩, ⟨4, 7, "a", "b", none, true, 0, none⟩,
        ⟨5, 7, "a", "b", none, true, 0, none⟩, ⟨6, 7, "a", "b", none, true, 0, none⟩,
        ⟨7, 7, "a", "b", none, true, 0, none⟩, ⟨8, 7, "a", "b", none, true, 0, none⟩,
        ⟨9, 7, "a", "b", none, true, 0, none⟩, ⟨10, 7, "a", "b", none, true, 0, none⟩],
       [], 11⟩
      [] emptyEngine 7 "@src" "@tgt" "skip" 5 (by decide) (by decide)).1,
   (createRule_quota_enforced
      ⟨[⟨7, some "+14155552671", some "sess", true, 0, 0⟩], [],
       [⟨1, 7, "a", "b", none, true, 0, none⟩, ⟨2, 7, "a", "b", none, true, 0, none⟩,
        ⟨3, 7, "a", "b", none, true, 0, none⟩, ⟨4, 7, "a", "b", none, true, 0, none⟩,
        ⟨5, 7, "a", "b", none, true, 0, none⟩, ⟨6, 7, "a", "b", none, true, 0, none⟩,
        ⟨7, 7, "a", "b", none, true, 0, none⟩, ⟨8, 7, "a", "b", none, true, 0, none⟩,
        ⟨9, 7, "a", "b", none, true, 0, none⟩, ⟨10, 7, "a", "b", none, true, 0, none⟩],
       [], 11⟩
      [] emptyEngine 7 "@src" "@tgt" "skip" 5 (by decide) (by decide)).2.2.1⟩

/-- Claim C9: for an existing user record, `start` replaces the entire
stored row by a fresh one holding only the user identity and the new
timestamps: the looked-up row afterwards has `phone` NULL,
`session_string` NULL and `is_verified` 0 — so a previously verified user
who invokes `start` is no longer verified and must re-verify — while
rows of all other users are untouched. -/
theorem start_replaces_user_row (db : DB) (sessions : List (Nat × UserSession))
    (uid now : Nat) (u : UserRow) (hu : u ∈ db.users) (hid : u.user_id = uid) :
    usersLookup (start db sessions uid now).db uid =
      some { user_id := uid, phone := none, session_string := none,
             is_verified := false, created_at := now, last_active := now } ∧
    userVerified (start db sessions uid now).db uid = false ∧
    (∀ v ∈ db.users, v.user_id ≠ uid → v ∈ (start db sessions uid now).db.users) := by
  have hdb : (start db sessions uid now).db = replaceUserRow db
      { user_id := uid, phone := none, session_string := none,
        is_verified := false, created_at := now, last_active := now } := by
    unfold start
    by_cases h : userVerified (replaceUserRow db
      { user_id := uid, phone := none, session_string := none,
        is_verified := false, created_at := now, last_active := now }) uid <;> simp [h]
  have hfind : usersLookup (start db sessions uid now).db uid =
      some { user_id := uid, phone := none, session_string := none,
             is_verified := false, created_at := now, last_active := now } := by
    rw [hdb]
    exact usersFind_replaceRow db.users _ uid rfl
  refine ⟨hfind, ?_, ?_⟩
  · unfold userVerified
    rw [hfind]
  · intro v hv hvne
    rw [hdb]
    unfold replaceUserRow
    exact List.mem_append_left _ (List.mem_filter.mpr ⟨hv, by simpa using hvne⟩)

/-- Witness for the C9 theorem: a verified user with a stored phone and
session credential invokes `start` and their row is reset (verification
lost), while another user's row survives unchanged. -/
theorem start_replaces_user_row_witness :
    usersLookup (start
        ⟨[⟨7, some "+14155552671", some "sess", true, 0, 0⟩,
          ⟨3, some "+4915112345678", none, true, 0, 0⟩], [], [], [], 1⟩ [] 7 50).db 7 =
      some ⟨7, none, none, false, 50, 50⟩ ∧
    (⟨3, some "+4915112345678", none, true, 0, 0⟩ : UserRow) ∈
      (start ⟨[⟨7, some "+14155552671", some "sess", true, 0, 0⟩,
        ⟨3, some "+4915112345678", none, true, 0, 0⟩], [], [], [], 1⟩ [] 7 50).db.users :=
  ⟨(start_replaces_user_row
      ⟨[⟨7, some "+14155552671", some "sess", true, 0, 0⟩,
        ⟨3, some "+4915112345678", none, true, 0, 0⟩], [], [], [], 1⟩ [] 7 50
      ⟨7, some "+14155552671", some "sess", true, 0, 0⟩ (by decide) (by decide)).1,
   (start_replaces_user_row
      ⟨[⟨7, some "+14155552671", some "sess", true, 0, 0⟩,
        ⟨3, some "+4915112345678", none, true, 0, 0⟩], [], [], [], 1⟩ [] 7 50
      ⟨7, some "+14155552671", some "sess", true, 0, 0⟩ (by decide) (by decide)).2.2
      ⟨3, some "+4915112345678", none, true, 0, 0⟩ (by decide) (by decide)⟩

/-- Claim C8: creating a new active rule for a user whose previous
forwarding task is still registered cancels that previous task
unconditionally — the registry is keyed by user id alone, not by rule, so
whatever rule the old task was relaying and whatever rule the new one
will relay, the old one is cancelled; consequently (under the registry
invariant, which the spawn operation preserves and the empty registry
satisfies) every user holds at most one live relay task at any time,
however many active rules they hold. -/
theorem spawn_cancels_previous_user_task (eng : Engine) (uid ruleId : Nat)
    (hinv : EngineInv eng) :
    (∀ t, ftLookup eng.forwarding_tasks uid = some t →
      ∀ e ∈ (spawnForwardingTask eng uid ruleId).tasks, e.taskId = t →
        e.cancelled = true) ∧
    EngineInv (spawnForwardingTask eng uid ruleId) ∧
    (∀ uid2, (liveTasks (spawnForwardingTask eng uid ruleId) uid2).length ≤ 1) := by
  refine ⟨?_, spawn_preserves_inv eng uid ruleId hinv,
    fun uid2 => liveTasks_le_one _ (spawn_preserves_inv eng uid ruleId hinv) uid2⟩
  intro t hft e he het
  have hlt : t < eng.nextTaskId := hinv.dict_lt uid t hft
  have htasks : (spawnForwardingTask eng uid ruleId).tasks =
      (eng.tasks.map (fun x => if x.taskId = t then { x with cancelled := true } else x)) ++
        [{ taskId := eng.nextTaskId, owner := uid, ruleId := ruleId, cancelled := false }] := by
    simp [spawnForwardingTask, hft]
  rw [htasks] at he
  rcases List.mem_append.mp he with h | h
  · rcases List.mem_map.mp h with ⟨x, hx, hfx⟩
    by_cases hxt : x.taskId = t
    · rw [← hfx]
      simp [hxt]
    · exfalso
      rw [← hfx] at het
      simp [hxt] at het
  · exfalso
    rw [List.mem_singleton.mp h] at het
    simp at het
    omega

/-- Witness for the C8 theorem: from the empty registry, user 7 creates
rule 1 (task 0 spawns) and then rule 2 — task 0 is cancelled even though
it was relaying a different rule, and user 7 still has at most one live
task. -/
theorem spawn_cancels_previous_user_task_witness :
    EngineInv (spawnForwardingTask emptyEngine 7 1) ∧
    (∀ e ∈ (spawnForwardingTask (spawnForwardingTask emptyEngine 7 1) 7 2).tasks,
      e.taskId = 0 → e.cancelled = true) ∧
    (liveTasks (spawnForwardingTask (spawnForwardingTask emptyEngine 7 1) 7 2) 7).length ≤ 1 := by
  have h0 : EngineInv emptyEngine := by
    refine ⟨?_, ?_, ?_, ?_⟩ <;> simp [emptyEngine]
  have h1 := spawn_cancels_previous_user_task emptyEngine 7 1 h0
  have h2 := spawn_cancels_previous_user_task (spawnForwardingTask emptyEngine 7 1) 7 2 h1.2.1
  exact ⟨h1.2.1, h2.1 0 rfl, h2.2.2 7⟩

end ForwardBot
